import Mathlib

/-
  Verification of the viewer-data aggregation plugin and the persistent
  channel-config store of the sc2profile twitch-extension API.

  The TypeScript source is shallowly embedded: pure helpers become Lean
  functions; the JavaScript number semantics that matter here (Infinity,
  NaN, truthiness, `Math.round`) are modelled exactly with an idealized
  rational carrier; upstream/cache effects are modelled as oracle
  functions in an environment, with the calls issued by a run collected
  into explicit logs; code that can throw returns `Except`, and a JS
  try/catch becomes a `match` on that `Except`.
-/

/-! ## JavaScript number model

JS numbers are IEEE doubles; every value arising in this code is either a
small integer, an exact small ratio, `Infinity`, `-Infinity` or `NaN`, so
we model them as exact rationals extended with the three special values. -/

inductive JSNum where
  | num (q : ℚ)
  | inf
  | negInf
  | nan
deriving DecidableEq

/-- Rational addition written as the textbook fraction formula over
`mkRat`, so that concrete instances reduce inside the kernel (Mathlib's
`+` on `ℚ` is irreducible there); `ratAdd_eq` below proves it equal to
`+`. -/
def ratAdd (a b : ℚ) : ℚ :=
  mkRat (a.num * (b.den : Int) + b.num * (a.den : Int)) (a.den * b.den)

/-- Rational multiplication over `mkRat`; `ratMul_eq` proves it equal to
`*`. -/
def ratMul (a b : ℚ) : ℚ :=
  mkRat (a.num * b.num) (a.den * b.den)

/-- Rational division over `mkRat` (the sign of the divisor moves to the
numerator so the denominator is a natural); `ratDiv_eq` proves it equal
to `/` for a nonzero divisor. -/
def ratDiv (a b : ℚ) : ℚ :=
  mkRat (a.num * (b.den : Int) * Int.sign b.num) (a.den * b.num.natAbs)

/-- JS `+` on numbers: `NaN` propagates, `Infinity + -Infinity = NaN`. -/
def jsAdd : JSNum → JSNum → JSNum
  | .nan, _ => .nan
  | _, .nan => .nan
  | .inf, .negInf => .nan
  | .negInf, .inf => .nan
  | .inf, _ => .inf
  | _, .inf => .inf
  | .negInf, _ => .negInf
  | _, .negInf => .negInf
  | .num a, .num b => .num (ratAdd a b)

/-- JS `*` on numbers: `NaN` propagates, `Infinity * 0 = NaN`. -/
def jsMul : JSNum → JSNum → JSNum
  | .nan, _ => .nan
  | _, .nan => .nan
  | .num a, .num b => .num (ratMul a b)
  | .inf, .num b => if 0 < b then .inf else if b < 0 then .negInf else .nan
  | .num a, .inf => if 0 < a then .inf else if a < 0 then .negInf else .nan
  | .negInf, .num b => if 0 < b then .negInf else if b < 0 then .inf else .nan
  | .num a, .negInf => if 0 < a then .negInf else if a < 0 then .inf else .nan
  | .inf, .inf => .inf
  | .negInf, .negInf => .inf
  | .inf, .negInf => .negInf
  | .negInf, .inf => .negInf

/-- JS `/` on numbers: division by zero gives a signed infinity for a
nonzero numerator and `NaN` for `0 / 0` (the code only produces `+0`). -/
def jsDiv : JSNum → JSNum → JSNum
  | .nan, _ => .nan
  | _, .nan => .nan
  | .num a, .num b =>
      if b = 0 then (if 0 < a then .inf else if a < 0 then .negInf else .nan)
      else .num (ratDiv a b)
  | .num _, .inf => .num 0
  | .num _, .negInf => .num 0
  | .inf, .num b => if b < 0 then .negInf else .inf
  | .negInf, .num b => if b < 0 then .inf else .negInf
  | .inf, .inf => .nan
  | .inf, .negInf => .nan
  | .negInf, .inf => .nan
  | .negInf, .negInf => .nan

/-- JS `Math.round`: halves round toward positive infinity
(`⌊q + 1/2⌋`, written with the kernel-computable helpers; `jsRound_eq`
below restates it with Mathlib's floor); the special values are returned
unchanged. -/
def jsRound : JSNum → JSNum
  | .num q => .num (mkRat (Rat.floor (ratAdd q (mkRat 1 2))) 1)
  | .inf => .inf
  | .negInf => .negInf
  | .nan => .nan

/-- JS truthiness of a number: `0` and `NaN` are falsy, everything else
(including the infinities) is truthy. -/
def jsTruthy : JSNum → Bool
  | .num q => q != 0
  | .nan => false
  | .inf => true
  | .negInf => true

/-- JS `a || b` on numbers. -/
def jsOr (a b : JSNum) : JSNum := if jsTruthy a then a else b

/-- ToNumber coercion of a possibly-`undefined` number: `undefined`
becomes `NaN` (this is what arithmetic on a missing field does). -/
def jsOfOpt : Option JSNum → JSNum
  | some v => v
  | none => .nan

/-! ## Pacer model (`sleep`)

`sleep` is translated statement by statement: it logs, constructs
`new Promise(resolve => setTimeout(resolve, ms))` — and discards it,
because the arrow-function body has no `return` statement, so the call
evaluates to `undefined` (`none`). -/

structure JsPromise where
  resolveAfterMs : Nat
deriving DecidableEq

def sleep (ms : Nat) : Option JsPromise :=
  let _promise := JsPromise.mk ms
  none

/-- How long `await x` suspends the continuation: awaiting a promise
waits until it resolves; awaiting `undefined` resumes immediately. -/
def awaitSuspensionMs : Option JsPromise → Nat
  | some p => p.resolveAfterMs
  | none => 0

/-! ## Rank helpers -/

def ranks : List String :=
  ["bronze", "silver", "gold", "platinum", "diamond", "master", "grandmaster"]

/-- JS `Array.prototype.indexOf`: first index of `x`, or `-1`. -/
def jsIndexOf (l : List String) (x : String) : Int :=
  match l with
  | [] => -1
  | a :: as =>
      if a = x then 0
      else
        let r := jsIndexOf as x
        if r = -1 then -1 else r + 1

/-- JS `String.prototype.toLowerCase` on the ASCII labels this code
handles, defined over the character list so that concrete instances
reduce in the kernel (extensionally `String.toLower`). -/
def jsToLower (s : String) : String :=
  String.mk (s.data.map Char.toLower)

/-- JS truthiness of a possibly-`undefined` string: `undefined` and the
empty string are falsy. -/
def strTruthy : Option String → Bool
  | some s => s != ""
  | none => false

def calculateHighestRank (soloRank teamRank : Option String) : String :=
  let soloRankIndex : Int :=
    if strTruthy soloRank then jsIndexOf ranks (jsToLower (soloRank.getD "")) else -1
  let teamRankIndex : Int :=
    if strTruthy teamRank then jsIndexOf ranks (jsToLower (teamRank.getD "")) else -1
  if soloRankIndex > teamRankIndex then
    if strTruthy soloRank then jsToLower (soloRank.getD "") else ""
  else
    if strTruthy teamRank then jsToLower (teamRank.getD "") else ""

/-- Tier index of an optional rank label in the `ranks` order; an absent
or unknown label indexes as `-1` (ranks lowest). -/
def tierIndex : Option String → Int
  | some s => jsIndexOf ranks (jsToLower s)
  | none => -1

/-- Lower-cased label of an optional rank label, empty when absent. -/
def lowerLabel : Option String → String
  | some s => jsToLower s
  | none => ""

/-! ## Upstream payload shapes

The TypeScript payloads are untyped (`any`); the structures below declare
exactly the fields the plugin reads, with `Option` where the code itself
guards for absence (optional chaining, truthiness tests) or where absence
is how the upstream exercises an error path the code handles. -/

structure GameModeStats where
  totalWins : JSNum
deriving DecidableEq

structure ProfileSnapshot where
  seasonSnapshot : List (String × GameModeStats)
  totalRankedSeasonGamesPlayed : Option JSNum
deriving DecidableEq

structure BestFinish where
  leagueName : Option String
deriving DecidableEq

structure ProfileCareer where
  current1v1LeagueName : Option String
  currentBestTeamLeagueName : Option String
  totalCareerGames : Option JSNum
  best1v1Finish : Option BestFinish
  bestTeamFinish : Option BestFinish
deriving DecidableEq

structure ProfileSummary where
  portrait : String
  clanName : String
  clanTag : String
  displayName : String
deriving DecidableEq

structure ProfileData where
  summary : ProfileSummary
  career : Option ProfileCareer
  snapshot : Option ProfileSnapshot
deriving DecidableEq

structure ProfileApiData where
  data : ProfileData
deriving DecidableEq

/-! ## Season win ratio (`calculateWins`, `calculateSeasonWinRatio`, `getStats`) -/

/-- `Object.keys(s).map(k => s[k].totalWins).reduce((sum, v) => sum + v)`:
`reduce` without an initial value throws a `TypeError` on an empty array,
otherwise it left-folds starting from the first element. -/
def calculateWins (seasonSnapshot : List (String × GameModeStats)) : Except Unit JSNum :=
  match seasonSnapshot.map (fun kv => kv.2.totalWins) with
  | [] => .error ()
  | w :: ws => .ok (ws.foldl jsAdd w)

/-- `calculateSeasonWinRatio(apiData)` where `apiData` is the (possibly
`undefined`) snapshot object: reading `.seasonSnapshot` off `undefined`
throws; otherwise `Math.round(Number(wins) * 100 / totalGames)`
(`Number` on a number is the identity; a missing `totalGames` coerces to
`NaN` in the division). -/
def calculateSeasonWinRatio (apiData : Option ProfileSnapshot) : Except Unit JSNum :=
  match apiData with
  | none => .error ()
  | some snap =>
      match calculateWins snap.seasonSnapshot with
      | .error e => .error e
      | .ok wins =>
          let totalGames := snap.totalRankedSeasonGamesPlayed
          .ok (jsRound (jsDiv (jsMul wins (.num 100)) (jsOfOpt totalGames)))

structure Stats where
  totalCareerGames : JSNum
  totalRankedGamesThisSeason : Option JSNum
  seasonWinRatio : JSNum
  highestSoloRank : String
  highestTeamRank : String
deriving DecidableEq

/-- `career?.best1v1Finish?.leagueName?.toLowerCase() || ''`: the optional
chain yields `undefined` (falsy, so `''`) whenever a link is missing, and
the lower-cased league name otherwise (lower-casing `''` gives `''`, which
`|| ''` maps to `''` as well — same value either way). -/
def lowerLeagueOrEmpty (finish : Option BestFinish) : String :=
  ((finish.bind BestFinish.leagueName).map jsToLower).getD ""

def getStats (apiData : ProfileApiData) : Except Unit Stats :=
  let snapshot := apiData.data.snapshot
  let career := apiData.data.career
  match calculateSeasonWinRatio snapshot with
  | .error e => .error e
  | .ok ratio =>
      .ok {
        totalCareerGames := jsOr (jsOfOpt (career.bind ProfileCareer.totalCareerGames)) (.num 0),
        totalRankedGamesThisSeason := snapshot.bind ProfileSnapshot.totalRankedSeasonGamesPlayed,
        seasonWinRatio := jsOr ratio (.num 0),
        highestSoloRank := lowerLeagueOrEmpty (career.bind ProfileCareer.best1v1Finish),
        highestTeamRank := lowerLeagueOrEmpty (career.bind ProfileCareer.bestTeamFinish)
      }

/-! ## Heading (`getHeading`) -/

structure ClanInfo where
  name : String
  tag : String
deriving DecidableEq

structure PlayerInfo where
  clan : ClanInfo
  name : String
  server : Option String
deriving DecidableEq

structure PortraitInfo where
  url : String
  frame : String
deriving DecidableEq

structure Heading where
  portrait : PortraitInfo
  player : PlayerInfo
deriving DecidableEq

/-- `getHeading`: destructures `summary` and `career` off `apiData.data`;
reading `career.current1v1LeagueName` throws when `career` is
`undefined`. `regionName` is stored as-is (it may be `undefined` when the
region lookup produced an empty array). -/
def getHeading (apiData : ProfileApiData) (regionName : Option String) : Except Unit Heading :=
  match apiData.data.career with
  | none => .error ()
  | some career =>
      let summary := apiData.data.summary
      .ok {
        portrait := {
          url := summary.portrait,
          frame := calculateHighestRank career.current1v1LeagueName career.currentBestTeamLeagueName
        },
        player := {
          clan := { name := summary.clanName, tag := summary.clanTag },
          name := summary.displayName,
          server := regionName
        }
      }

/-! ## Match history (`getMatchHistory`) -/

structure RawMatch where
  type : String
  map : String
  decision : String
  date : JSNum
deriving DecidableEq

structure MatchesData where
  /-- source field name is `matches`, which is a Lean keyword -/
  matchesArr : List RawMatch
deriving DecidableEq

structure MatchHistoryApiData where
  data : MatchesData
deriving DecidableEq

structure MatchRecord where
  mapName : String
  mode : String
  result : String
  date : JSNum
deriving DecidableEq

def getMatchHistory (apiData : MatchHistoryApiData) : List MatchRecord :=
  let data := apiData.data.matchesArr
  let filteredMatchHistory := data.filter (fun mtch => mtch.type != "Custom")
  filteredMatchHistory.map (fun matchObject => {
    mapName := matchObject.map,
    mode := matchObject.type,
    result := jsToLower matchObject.decision,
    date := jsMul matchObject.date (.num 1000)
  })

/-- Modelled from the spec's words, as the refinement target for the
match-history transformation: exclude exactly the entries whose type is
"Custom" and map each remaining entry to
`{mapName: map, mode: type, result: decision lower-cased, date: date * 1000}`. -/
def matchRecordSpec (m : RawMatch) : MatchRecord :=
  { mapName := m.map, mode := m.type, result := jsToLower m.decision,
    date := jsMul m.date (.num 1000) }

/-- Modelled from the spec's words: the filtered, normalized history. -/
def matchHistorySpec (rawMatches : List RawMatch) : List MatchRecord :=
  (rawMatches.filter (fun m => m.type != "Custom")).map matchRecordSpec

/-! ## Ladder payloads (`getPlayerLadderInfo`) -/

structure TeamMember where
  id : Nat
  displayName : String
  favoriteRace : String
deriving DecidableEq

structure LadderTeam where
  teamMembers : List TeamMember
  wins : JSNum
  losses : JSNum
deriving DecidableEq

structure RankAndPool where
  rank : JSNum
  mmr : JSNum
deriving DecidableEq

structure LadderMembershipInfo where
  localizedGameMode : String
deriving DecidableEq

structure LadderData where
  ladderTeams : List LadderTeam
  ranksAndPools : List RankAndPool
  currentLadderMembership : LadderMembershipInfo
deriving DecidableEq

structure LadderApiData where
  data : LadderData
deriving DecidableEq

structure LadderResult where
  mode : String
  rank : String
  wins : JSNum
  losses : JSNum
  race : String
  mmr : JSNum
  divisionRank : JSNum
  teamMembers : List String
deriving DecidableEq

/-- `getPlayerLadderInfo`, statement by statement. Every place the
TypeScript indexes `[0]`/`[1]`/`[2]` into a possibly-too-short array and
then dereferences the result is a `TypeError` throw, modelled as
`.error ()`:
destructuring `{rank, mmr}` from `ranksAndPools[0]`, lower-casing the
missing second word of `localizedGameMode`, destructuring from
`filter(...)[0]` when no ladder team contains the profile id, and reading
`.favoriteRace` off `filter(...)[0]` of the team members. -/
def getPlayerLadderInfo (apiData : LadderApiData) (profileId : Nat) : Except Unit LadderResult :=
  let ladderTeams := apiData.data.ladderTeams
  match apiData.data.ranksAndPools.head? with
  | none => .error ()
  | some rp =>
      let localizedGameMode := apiData.data.currentLadderMembership.localizedGameMode.splitOn " "
      match localizedGameMode.head? with
      | none => .error ()
      | some word0 =>
          let mode := jsToLower word0
          match localizedGameMode.get? 1 with
          | none => .error ()
          | some word1 =>
              let rankNameE : Except Unit String :=
                if jsToLower word1 = "random" then
                  match localizedGameMode.get? 2 with
                  | none => .error ()
                  | some word2 => .ok (jsToLower word2)
                else .ok (jsToLower word1)
              match rankNameE with
              | .error e => .error e
              | .ok rankName =>
                  match (ladderTeams.filter (fun lt =>
                      lt.teamMembers.any (fun tm => tm.id == profileId))).head? with
                  | none => .error ()
                  | some playerLadderData =>
                      let teamMemberNames :=
                        playerLadderData.teamMembers.map TeamMember.displayName
                      match (playerLadderData.teamMembers.filter
                          (fun tm => tm.id == profileId)).head? with
                      | none => .error ()
                      | some raceMember =>
                          .ok {
                            mode := mode,
                            rank := rankName,
                            wins := playerLadderData.wins,
                            losses := playerLadderData.losses,
                            race := raceMember.favoriteRace,
                            mmr := rp.mmr,
                            divisionRank := rp.rank,
                            teamMembers := teamMemberNames
                          }

/-! ## Ladder summary payload -/

structure LadderMembershipId where
  ladderId : Nat
deriving DecidableEq

structure LadderSummaryData where
  allLadderMemberships : List LadderMembershipId
deriving DecidableEq

structure LadderSummaryApiData where
  data : LadderSummaryData
deriving DecidableEq

/-! ## Environment: upstream client, cache backend, host JSON functions

`server.sas` (the upstream client), `server.redis` (the cache) and the
host's `JSON` object are external collaborators; they are modelled as
oracle functions fixed for the duration of one request. An upstream call
either resolves with a payload or rejects (`.error ()`). -/

structure PlayerObject where
  regionId : Nat
  realmId : Nat
  profileId : Nat
deriving DecidableEq

/-- Abstract JSON value universe for the decoded content of cache hits.
No claim inspects the structure of a decoded document, so a compound
document is represented opaquely by its source text (`doc`). -/
inductive Json where
  | null
  | bool (b : Bool)
  | num (q : ℚ)
  | str (s : String)
  | doc (source : String)
deriving DecidableEq

/-- Marker of the `{}` assembly-failure slot: `some payload` is a fully
populated payload, `none` is the empty-object marker returned by the
per-profile catch. -/
structure ViewerDetails where
  snapshot : List LadderResult
  stats : Stats
  history : List MatchRecord
deriving DecidableEq

structure ViewerPayload where
  heading : Heading
  details : ViewerDetails
deriving DecidableEq

/-- The data object cached on a successful batch: `{profiles: results}`,
where a `none` entry stands for the `{}` failure marker. -/
structure ProfilesWrap where
  profiles : List (Option ViewerPayload)
deriving DecidableEq

structure Env where
  cacheActive : Bool
  /-- cache contents during this request: `redis.get` returns the stored
  string or null (`none`) -/
  redisGet : String → Option String
  /-- configured TTL (plugin option) -/
  ttl : Nat
  /-- host `JSON.parse`: `none` models a thrown `SyntaxError` -/
  jsonParse : String → Option Json
  /-- host `JSON.stringify` of the `{profiles: ...}` batch object -/
  stringifyProfiles : ProfilesWrap → String
  /-- `StarCraft2API.getRegionNameById` (external library, total) -/
  getRegionNameById : Nat → List String
  /-- `server.sas.getProfile` -/
  getProfile : PlayerObject → Except Unit ProfileApiData
  /-- `server.sas.getLegacyMatchHistory` -/
  getLegacyMatchHistory : PlayerObject → Except Unit MatchHistoryApiData
  /-- `server.sas.getLadderSummary` -/
  getLadderSummary : PlayerObject → Except Unit LadderSummaryApiData
  /-- `server.sas.getLadder` -/
  getLadder : PlayerObject → Nat → Except Unit LadderApiData

/-- One upstream-client invocation, for the call log of a run. -/
inductive UpstreamCall where
  | profileCall (p : PlayerObject)
  | matchHistoryCall (p : PlayerObject)
  | ladderSummaryCall (p : PlayerObject)
  | ladderCall (p : PlayerObject) (ladderId : Nat)
deriving DecidableEq

/-! ## Per-profile assembly pipeline -/

/-- `Array.prototype.map`'s `(element, index)` callback shape, as a plain
recursive indexed map (`start` is the index of the first element). -/
def mapWithIndex (f : Nat → α → β) : Nat → List α → List β
  | _, [] => []
  | i, a :: as => f i a :: mapWithIndex f (i + 1) as

/-- `Promise.all` on a list of already-settled outcomes: resolves with
the list of values in input order, rejects if any member rejected. -/
def promiseAll : List (Except Unit α) → Except Unit (List α)
  | [] => .ok []
  | .error e :: _ => .error e
  | .ok a :: rest =>
      match promiseAll rest with
      | .error e => .error e
      | .ok as => .ok (a :: as)

/-- `getLadderData`: `await sleep((index + 1) * 1000)` — which suspends
for `awaitSuspensionMs (sleep _) = 0` ms — then one `getLadder` call,
then the pure extraction. -/
def getLadderData (env : Env) (profile : PlayerObject) (ladderId : Nat) (index : Nat) :
    Except Unit LadderResult :=
  let _suspendedMs := awaitSuspensionMs (sleep ((index + 1) * 1000))
  match env.getLadder profile ladderId with
  | .error e => .error e
  | .ok ladderApiData => getPlayerLadderInfo ladderApiData profile.profileId

/-- `getSnapshot`: fan out one paced `getLadderData` per ladder
membership under `Promise.all`. All per-ladder fetches are started
concurrently, so every `getLadder` call is issued regardless of the
outcomes of its siblings; the call log therefore lists them all. -/
def getSnapshot (env : Env) (apiData : LadderSummaryApiData) (profile : PlayerObject) :
    Except Unit (List LadderResult) × List UpstreamCall :=
  let ladderIds := apiData.data.allLadderMemberships.map LadderMembershipId.ladderId
  (promiseAll (mapWithIndex (fun index ladderId => getLadderData env profile ladderId index) 0 ladderIds),
   ladderIds.map (fun ladderId => UpstreamCall.ladderCall profile ladderId))

/-- Body of `getProfileData`'s `try` block, in source order:
`getProfile`; paced (`await sleep` — 0 ms, see `sleep`);
`getLegacyMatchHistory`; paced; `getLadderSummary`; region-name lookup;
`getHeading`; paced; `getSnapshot`; `getStats`; `getMatchHistory`; then
the fully populated payload. The second component is the list of
upstream calls actually issued before the first failure (later paced
calls of this profile are never started once a step throws). -/
def assembleProfile (env : Env) (profile : PlayerObject) (index : Nat) :
    Except Unit ViewerPayload × List UpstreamCall :=
  match env.getProfile profile with
  | .error e => (.error e, [.profileCall profile])
  | .ok profileData =>
    let _pacedMs1 := awaitSuspensionMs (sleep ((index + 1) * 1000))
    match env.getLegacyMatchHistory profile with
    | .error e => (.error e, [.profileCall profile, .matchHistoryCall profile])
    | .ok matchHistoryData =>
      let _pacedMs2 := awaitSuspensionMs (sleep ((index + 1) * 1000))
      match env.getLadderSummary profile with
      | .error e =>
          (.error e, [.profileCall profile, .matchHistoryCall profile, .ladderSummaryCall profile])
      | .ok ladderSummaryData =>
        let baseLog : List UpstreamCall :=
          [.profileCall profile, .matchHistoryCall profile, .ladderSummaryCall profile]
        let regionName := (env.getRegionNameById profile.regionId).head?
        match getHeading profileData regionName with
        | .error e => (.error e, baseLog)
        | .ok heading =>
          let _pacedMs3 := awaitSuspensionMs (sleep ((index + 1) * 1000))
          match getSnapshot env ladderSummaryData profile with
          | (snapshotE, ladderLog) =>
            match snapshotE with
            | .error e => (.error e, baseLog ++ ladderLog)
            | .ok snapshot =>
              match getStats profileData with
              | .error e => (.error e, baseLog ++ ladderLog)
              | .ok stats =>
                let history := getMatchHistory matchHistoryData
                (.ok { heading := heading,
                       details := { snapshot := snapshot, stats := stats, history := history } },
                 baseLog ++ ladderLog)

/-- `getProfileData` = `assembleProfile` wrapped in the catch-all:
any failure resolves to the `{}` marker (`none`), never a rejection. -/
def getProfileData (env : Env) (profile : PlayerObject) (index : Nat) :
    Option ViewerPayload × List UpstreamCall :=
  ((assembleProfile env profile index).1.toOption, (assembleProfile env profile index).2)

/-! ## Cache gateway -/

/-- One operation issued against the cache backend. -/
inductive CacheOp where
  | setOp (key : String) (value : String)
  | expireOp (key : String) (ttl : Nat)
deriving DecidableEq

/-- source interface `DataObject { segment, data, ttl }` -/
structure DataObject where
  segment : String
  data : ProfilesWrap
  ttl : Nat

/-- `cacheObject`: when the cache is disabled no operation is issued;
otherwise `cache.set(segment, JSON.stringify(data))` followed by
`cache.expire(segment, ttl)` — two separate backend operations, in that
order. -/
def cacheObject (env : Env) (dobj : DataObject) : String × List CacheOp :=
  if env.cacheActive = false then
    ("Object not cached (Cache disabled)", [])
  else
    ("Object cached successfully",
     [CacheOp.setOp dobj.segment (env.stringifyProfiles dobj.data),
      CacheOp.expireOp dobj.segment dobj.ttl])

/-- `isDataCached`: `server.redis.get(segment) ? true : false` when the
cache is active — null and the empty string are both falsy — and a
resolved `false` when it is not. -/
def isDataCached (env : Env) (segment : String) : Bool :=
  if env.cacheActive then
    match env.redisGet segment with
    | some s => s != ""
    | none => false
  else false

/-- `getCachedObject`: the raw backend value when the cache is active,
and `JSON.stringify({})` (the literal text of the empty object) when it
is not. -/
def getCachedObject (env : Env) (segment : String) : Option String :=
  if env.cacheActive then env.redisGet segment else some "\x7b\x7d"

/-! ## Batch aggregation (`getFreshData`) -/

/-- The two result shapes `getFreshData` can return: the
`{profiles: results}` object of the normal path, or the bare `[]` of the
catch branch. -/
inductive GetFreshResult where
  | profilesObj (results : List (Option ViewerPayload))
  | emptyArr
deriving DecidableEq

/-- Body of `getFreshData`'s `try` block:
`Promise.all(profiles.map(async (profile, index) => getProfileData(profile, index)))`.
Typed in `Except` to mirror the `try`, but every `getProfileData`
resolves (its own catch swallows all failures), so the body never
throws. -/
def getFreshDataBody (env : Env) (profiles : List PlayerObject) :
    Except Unit (List (Option ViewerPayload) × List UpstreamCall) :=
  let perProfile := mapWithIndex (fun index profile => getProfileData env profile index) 0 profiles
  .ok (perProfile.map Prod.fst, (perProfile.map Prod.snd).flatten)

/-- `getFreshData`: run the batch; on success fire-and-forget
`cacheActive && cacheObject({segment, data: {profiles}, ttl})` and
return `{profiles}`; the catch branch returns `[]`. -/
def getFreshData (env : Env) (profiles : List PlayerObject) (cacheSegment : String) :
    GetFreshResult × List CacheOp × List UpstreamCall :=
  match getFreshDataBody env profiles with
  | .ok (profileData, upstreamLog) =>
      let ops :=
        if env.cacheActive then
          (cacheObject env { segment := cacheSegment, data := { profiles := profileData }, ttl := env.ttl }).2
        else []
      (.profilesObj profileData, ops, upstreamLog)
  | .error _ => (.emptyArr, [], [])

/-- The per-slot batch results of `getFreshData` (the `profiles` field of
the returned object; the catch branch has no slots). -/
def freshProfiles (env : Env) (profiles : List PlayerObject) (cacheSegment : String) :
    List (Option ViewerPayload) :=
  match (getFreshData env profiles cacheSegment).1 with
  | .profilesObj results => results
  | .emptyArr => []

/-! ## ViewerService (`getData`) -/

/-- Inbound request: `{channelId, profiles, refresh?}`. -/
structure GetDataParams where
  channelId : String
  profiles : List PlayerObject
  refresh : Option Bool

/-- What `getData` resolves with: the decoded cache entry on a hit, or
the fresh batch result on a miss. -/
inductive GetDataResult where
  | cached (decoded : Json)
  | fresh (result : GetFreshResult)
deriving DecidableEq

/-- `getData`: compute the segment `viewer-{channelId}`; on an active
cache with a truthy entry, `JSON.parse` the entry (a parse failure
throws out of `getData` — there is no catch here; `JSON.parse(null)`
yields `null`); otherwise run `getFreshData`. The `refresh` field of the
request is never read. Besides the result, the run's cache-write
operations and upstream calls are returned. -/
def getData (env : Env) (params : GetDataParams) :
    Except Unit GetDataResult × List CacheOp × List UpstreamCall :=
  let cacheSegment := "viewer-" ++ params.channelId
  let isItCached := isDataCached env cacheSegment
  if env.cacheActive && isItCached then
    match getCachedObject env cacheSegment with
    | some cachedData =>
        match env.jsonParse cachedData with
        | some decoded => (.ok (.cached decoded), [], [])
        | none => (.error (), [], [])
    | none => (.ok (.cached .null), [], [])
  else
    match getFreshData env params.profiles cacheSegment with
    | (result, ops, upstreamLog) => (.ok (.fresh result), ops, upstreamLog)

/-! ## Cache backend state machine

To reason about what a reader can observe between the two backend
operations of `cacheObject`, the Redis-like backend is modelled as a
value map plus a TTL map: `SET` stores the value and clears any TTL,
`EXPIRE` attaches a TTL to an existing key and is a no-op on a missing
one. -/

structure CacheState where
  value : String → Option String
  ttlOf : String → Option Nat

def applyOp (st : CacheState) : CacheOp → CacheState
  | .setOp k v =>
      { value := fun s => if s = k then some v else st.value s,
        ttlOf := fun s => if s = k then none else st.ttlOf s }
  | .expireOp k t =>
      { value := st.value,
        ttlOf := fun s =>
          if s = k then (if (st.value k).isSome then some t else st.ttlOf k)
          else st.ttlOf s }

def applyOps (st : CacheState) (ops : List CacheOp) : CacheState :=
  ops.foldl applyOp st

def emptyCacheState : CacheState :=
  { value := fun _ => none, ttlOf := fun _ => none }

/-! ## Persistent store (`src/plugins/db.ts`)

The Mongo collection is modelled as an association list from channel id
to stored profile list; a backend failure (a rejected Mongoose call) is
modelled by the `dbFails` flag, under which every store operation
throws. -/

structure ConfigObject where
  channelId : Int
  data : List PlayerObject

structure DbEnv where
  /-- plugin option `maxPlayerProfileCount` -/
  maxPlayerProfileCount : Nat
  /-- when true, every store operation rejects -/
  dbFails : Bool
  /-- current collection contents -/
  dbState : List (Int × List PlayerObject)

/-- `ChannelConfig.findOneAndUpdate({channelId}, {profiles}, {upsert: true, ...})`:
replace the matching document's profiles, or insert a new document. -/
def dbUpsert : List (Int × List PlayerObject) → Int → List PlayerObject →
    List (Int × List PlayerObject)
  | [], channelId, profiles => [(channelId, profiles)]
  | (c, ps) :: rest, channelId, profiles =>
      if c = channelId then (channelId, profiles) :: rest
      else (c, ps) :: dbUpsert rest channelId profiles

/-- `ChannelConfig.findOne({channelId})`: the first matching document. -/
def dbFindOne : List (Int × List PlayerObject) → Int → Option (Int × List PlayerObject)
  | [], _ => none
  | (c, ps) :: rest, channelId =>
      if c = channelId then some (c, ps) else dbFindOne rest channelId

/-- `save`: upsert `data.slice(0, maxPlayerProfileCount)` under the
config's channel id and return `true`; the catch returns `false` (the
store is left as it was). JS `slice(0, n)` for the non-negative
configured count is `List.take n`. -/
def save (env : DbEnv) (config : ConfigObject) : Bool × List (Int × List PlayerObject) :=
  if env.dbFails then (false, env.dbState)
  else (true, dbUpsert env.dbState config.channelId (config.data.take env.maxPlayerProfileCount))

/-- The three result shapes of `get`: `{status: 200, channelId, profiles}`,
`{status: 404, message}`, and the catch's `{status: 400}`. -/
inductive GetConfigResult where
  | found (channelId : Int) (profiles : List PlayerObject)
  | notFound
  | storeError
deriving DecidableEq

def GetConfigResult.status : GetConfigResult → Nat
  | .found _ _ => 200
  | .notFound => 404
  | .storeError => 400

/-- `get`: look the channel up; a found document yields its own
`channelId` and `profiles` with status 200, no document yields 404, and
a store failure is caught and mapped to `{status: 400}` — the underlying
error never propagates (every branch returns a value). -/
def dbGet (env : DbEnv) (channelId : Int) : GetConfigResult :=
  if env.dbFails then .storeError
  else
    match dbFindOne env.dbState channelId with
    | some (c, profiles) => .found c profiles
    | none => .notFound

/-! ## Concrete fixtures for witnesses and counterexamples -/

/-- A profile whose assembly succeeds in `envBatch`. -/
def pOk : PlayerObject := { regionId := 1, realmId := 1, profileId := 10 }

/-- The profile whose `getProfile` call fails in `envBatch`. -/
def pBad : PlayerObject := { regionId := 1, realmId := 1, profileId := 20 }

/-- A third profile whose assembly succeeds in `envBatch`. -/
def pAlso : PlayerObject := { regionId := 2, realmId := 1, profileId := 30 }

def summaryFix : ProfileSummary :=
  { portrait := "portrait-url", clanName := "Clan", clanTag := "CLN", displayName := "Player" }

def careerFix : ProfileCareer :=
  { current1v1LeagueName := some "Diamond", currentBestTeamLeagueName := none,
    totalCareerGames := some (.num 200), best1v1Finish := some { leagueName := some "Master" },
    bestTeamFinish := none }

def snapshotFix : ProfileSnapshot :=
  { seasonSnapshot := [("1v1", { totalWins := .num 3 }), ("2v2", { totalWins := .num 2 })],
    totalRankedSeasonGamesPlayed := some (.num 10) }

def profileApiFix : ProfileApiData :=
  { data := { summary := summaryFix, career := some careerFix, snapshot := some snapshotFix } }

/-- Season snapshot of the spec's own example with a zero denominator:
`{a: {totalWins: 3}, b: {totalWins: 2}}`, `totalRankedSeasonGamesPlayed = 0`. -/
def snapshotZeroDenom : ProfileSnapshot :=
  { seasonSnapshot := [("a", { totalWins := .num 3 }), ("b", { totalWins := .num 2 })],
    totalRankedSeasonGamesPlayed := some (.num 0) }

/-- The same snapshot with denominator 10 (the passing spec example). -/
def snapshotTenDenom : ProfileSnapshot :=
  { seasonSnapshot := [("a", { totalWins := .num 3 }), ("b", { totalWins := .num 2 })],
    totalRankedSeasonGamesPlayed := some (.num 10) }

/-- The same snapshot with the denominator missing. -/
def snapshotNoDenom : ProfileSnapshot :=
  { seasonSnapshot := [("a", { totalWins := .num 3 }), ("b", { totalWins := .num 2 })],
    totalRankedSeasonGamesPlayed := none }

def profileApiZeroDenom : ProfileApiData :=
  { data := { summary := summaryFix, career := some careerFix, snapshot := some snapshotZeroDenom } }

def profileApiTenDenom : ProfileApiData :=
  { data := { summary := summaryFix, career := some careerFix, snapshot := some snapshotTenDenom } }

def profileApiNoDenom : ProfileApiData :=
  { data := { summary := summaryFix, career := some careerFix, snapshot := some snapshotNoDenom } }

def matchHistoryFix : MatchHistoryApiData := { data := { matchesArr := [] } }

def ladderSummaryFix : LadderSummaryApiData := { data := { allLadderMemberships := [] } }

/-- Environment for the batch fixtures: cache inactive, upstream resolves
for every profile except `pBad`, whose `getProfile` rejects. -/
def envBatch : Env :=
  { cacheActive := false,
    redisGet := fun _ => none,
    ttl := 300,
    jsonParse := fun _ => none,
    stringifyProfiles := fun _ => "encoded-batch",
    getRegionNameById := fun _ => ["US"],
    getProfile := fun p => if p = pBad then .error () else .ok profileApiFix,
    getLegacyMatchHistory := fun _ => .ok matchHistoryFix,
    getLadderSummary := fun _ => .ok ladderSummaryFix,
    getLadder := fun _ _ => .error () }

/-- Environment with an active cache holding a decodable entry for
channel `hit`. -/
def envHit : Env :=
  { envBatch with
    cacheActive := true,
    redisGet := fun s => if s = "viewer-hit" then some "cached-text" else none,
    jsonParse := fun s => if s = "cached-text" then some (.doc "cached-text") else none }

/-- Environment with an active cache whose entry for channel `emp` is
present but is the empty string. -/
def envEmptyEntry : Env :=
  { envBatch with
    cacheActive := true,
    redisGet := fun s => if s = "viewer-emp" then some "" else none }

/-- Environment with an active cache and no entry at all (a miss). -/
def envMiss : Env :=
  { envBatch with cacheActive := true, redisGet := fun _ => none }

def dbEnvOk : DbEnv :=
  { maxPlayerProfileCount := 2, dbFails := false, dbState := [] }

def dbEnvFail : DbEnv :=
  { maxPlayerProfileCount := 2, dbFails := true, dbState := [] }

def configFix : ConfigObject := { channelId := 7, data := [pOk, pBad, pAlso] }

-- Decidable equality for `Except` outcomes, used to evaluate concrete
-- runs of the embedded pipeline.
deriving instance DecidableEq for Except

/-- The fully populated payload that `assembleProfile envBatch pOk 0`
produces (checked in `c6_batch_isolation_witness`): heading from
`summaryFix`/`careerFix`, empty ladder snapshot (no memberships), stats
from `snapshotFix` (ratio `round(500/10) = 50`), empty history. -/
def payloadFix : ViewerPayload :=
  { heading :=
      { portrait := { url := "portrait-url", frame := "diamond" },
        player := { clan := { name := "Clan", tag := "CLN" }, name := "Player",
                    server := some "US" } },
    details :=
      { snapshot := [],
        stats :=
          { totalCareerGames := .num 200, totalRankedGamesThisSeason := some (.num 10),
            seasonWinRatio := .num 50, highestSoloRank := "master", highestTeamRank := "" },
        history := [] } }

/-! ## Supporting lemmas -/

/-- `ratAdd` is rational addition. -/
theorem ratAdd_eq (a b : ℚ) : ratAdd a b = a + b := by
  unfold ratAdd
  rw [Rat.mkRat_eq_div]
  have ha : (a.den : ℚ) ≠ 0 := by exact_mod_cast a.den_ne_zero
  have hb : (b.den : ℚ) ≠ 0 := by exact_mod_cast b.den_ne_zero
  conv_rhs => rw [← Rat.num_div_den a, ← Rat.num_div_den b]
  rw [div_add_div _ _ ha hb]
  push_cast
  ring_nf

/-- `ratMul` is rational multiplication. -/
theorem ratMul_eq (a b : ℚ) : ratMul a b = a * b := by
  unfold ratMul
  rw [Rat.mkRat_eq_div]
  conv_rhs => rw [← Rat.num_div_den a, ← Rat.num_div_den b]
  rw [div_mul_div_comm]
  push_cast
  ring_nf

/-- `ratDiv` is rational division (for the nonzero divisors `jsDiv`
guards for). -/
theorem ratDiv_eq (a b : ℚ) (hb : b ≠ 0) : ratDiv a b = a / b := by
  unfold ratDiv
  rw [Rat.mkRat_eq_div]
  have hbnum : b.num ≠ 0 := Rat.num_ne_zero.mpr hb
  have ha : (a.den : ℚ) ≠ 0 := by exact_mod_cast a.den_ne_zero
  have hbd : (b.den : ℚ) ≠ 0 := by exact_mod_cast b.den_ne_zero
  have hbq : (b.num : ℚ) ≠ 0 := by exact_mod_cast hbnum
  have hna : ((b.num.natAbs : ℚ)) ≠ 0 := by
    have h0 : b.num.natAbs ≠ 0 := Int.natAbs_ne_zero.mpr hbnum
    exact_mod_cast h0
  have h2q : (b.num.sign : ℚ) * (b.num : ℚ) = |(b.num : ℚ)| := by
    rcases lt_trichotomy b.num 0 with h | h | h
    · have hq : (b.num : ℚ) < 0 := by exact_mod_cast h
      rw [Int.sign_eq_neg_one_iff_neg.mpr h, abs_of_neg hq]
      push_cast
      ring
    · exact absurd h hbnum
    · have hq : (0 : ℚ) < (b.num : ℚ) := by exact_mod_cast h
      rw [Int.sign_eq_one_iff_pos.mpr h, abs_of_pos hq]
      push_cast
      ring
  conv_rhs => rw [← Rat.num_div_den a, ← Rat.num_div_den b]
  push_cast [Int.cast_natAbs]
  rw [div_div_div_comm]
  field_simp
  linear_combination ((a.num : ℚ) * (b.den : ℚ) * (a.den : ℚ)) * h2q

/-- `jsRound` on a finite number is `⌊q + 1/2⌋` (JS `Math.round`). -/
theorem jsRound_eq (q : ℚ) : jsRound (.num q) = .num ((⌊q + 1 / 2⌋ : ℤ) : ℚ) := by
  have hfl : Rat.floor (ratAdd q (mkRat 1 2)) = ⌊q + 1 / 2⌋ := by
    rw [ratAdd_eq]
    have hhalf : (mkRat 1 2 : ℚ) = 1 / 2 := by
      rw [Rat.mkRat_eq_div]
      norm_num
    rw [hhalf, Rat.floor_def' (q + 1 / 2), Rat.floor_def]
  show JSNum.num (mkRat (Rat.floor (ratAdd q (mkRat 1 2))) 1) = _
  rw [hfl, Rat.mkRat_eq_div]
  norm_num

/-- Length preservation of the indexed map. -/
theorem mapWithIndex_length (f : Nat → α → β) (s : Nat) (l : List α) :
    (mapWithIndex f s l).length = l.length := by
  induction l generalizing s with
  | nil => rfl
  | cons a as ih => simp [mapWithIndex, ih]

/-- Pointwise description of the indexed map. -/
theorem mapWithIndex_get? (f : Nat → α → β) (s k : Nat) (l : List α) :
    (mapWithIndex f s l).get? k = (l.get? k).map (f (s + k)) := by
  induction l generalizing s k with
  | nil => simp [mapWithIndex]
  | cons a as ih =>
      cases k with
      | zero => simp [mapWithIndex]
      | succ k =>
          have hs : s + 1 + k = s + (k + 1) := by omega
          calc (mapWithIndex f s (a :: as)).get? (k + 1)
              = (mapWithIndex f (s + 1) as).get? k := rfl
            _ = (as.get? k).map (f (s + 1 + k)) := ih (s + 1) k
            _ = ((a :: as).get? (k + 1)).map (f (s + (k + 1))) := by
                  rw [hs, List.get?_cons_succ]

/-- Mapping after an indexed map fuses. -/
theorem map_mapWithIndex (g : Nat → α → β) (h : β → γ) (s : Nat) (l : List α) :
    (mapWithIndex g s l).map h = mapWithIndex (fun i a => h (g i a)) s l := by
  induction l generalizing s with
  | nil => rfl
  | cons a as ih => simp [mapWithIndex, ih]

/-- The batch slots are exactly the per-profile assembly outcomes, in
input order. -/
theorem freshProfiles_eq (env : Env) (profiles : List PlayerObject) (seg : String) :
    freshProfiles env profiles seg =
      mapWithIndex (fun i p => (getProfileData env p i).1) 0 profiles := by
  show (mapWithIndex (fun i p => getProfileData env p i) 0 profiles).map Prod.fst = _
  rw [map_mapWithIndex]

/-- After an upsert, looking up the upserted channel finds exactly the
stored profiles. -/
theorem dbFindOne_dbUpsert (st : List (Int × List PlayerObject)) (c : Int)
    (ps : List PlayerObject) : dbFindOne (dbUpsert st c ps) c = some (c, ps) := by
  induction st with
  | nil => simp [dbUpsert, dbFindOne]
  | cons head rest ih =>
      obtain ⟨c', ps'⟩ := head
      by_cases h : c' = c <;> simp [dbUpsert, dbFindOne, h, ih]

/-! ## Claim theorems -/

/-- C1: the claim says every paced step of a profile's pipeline awaits
`sleep((k+1)*baseDelay)` and is thereby suspended for `(k+1)*baseDelay`
milliseconds. In the code `sleep` builds the timer promise but does not
return it (the arrow body has no `return`), so the `await` receives
`undefined` and suspends for 0 ms: at the first profile's paced step
(`k = 0`, base delay 1000 ms) the actual suspension is 0, not 1000. -/
theorem c1_sleep_suspends_zero_ms :
    sleep ((0 + 1) * 1000) = none ∧
    awaitSuspensionMs (sleep ((0 + 1) * 1000)) = 0 ∧
    awaitSuspensionMs (sleep ((0 + 1) * 1000)) ≠ (0 + 1) * 1000 := by
  refine ⟨rfl, rfl, ?_⟩
  decide

/-- C2: on the spec's own example snapshot
`{a: {totalWins: 3}, b: {totalWins: 2}}`, a denominator of 10 gives
`round(500/10) = 50` as claimed, and a missing denominator gives 0 as
claimed — but a zero denominator gives `500/0 = Infinity`, which is
truthy, so the `|| 0` fallback does not apply and the stored
`seasonWinRatio` is `Infinity`, not the claimed 0. -/
theorem c2_zero_denominator_gives_infinity :
    calculateSeasonWinRatio (some snapshotTenDenom) = .ok (.num 50) ∧
    (getStats profileApiTenDenom).toOption.map Stats.seasonWinRatio = some (.num 50) ∧
    calculateSeasonWinRatio (some snapshotZeroDenom) = .ok .inf ∧
    (getStats profileApiZeroDenom).toOption.map Stats.seasonWinRatio = some .inf ∧
    (getStats profileApiNoDenom).toOption.map Stats.seasonWinRatio = some (.num 0) ∧
    JSNum.inf ≠ .num 0 := by
  decide

/-- C3 counterexample: the claim says that when the comparison involves
an absent or unknown tier, the solo label (lower-cased) is preferred
when present. With solo label "Foo" (unknown, so index -1) and team
absent (index -1) the code takes the else-branch and returns the team
side, producing `""` instead of the claimed `"foo"`; likewise with both
labels unknown it returns the team label `"bar"`, not `"foo"`. -/
theorem c3_solo_not_preferred_counterexample :
    calculateHighestRank (some "Foo") none = "" ∧
    calculateHighestRank (some "Foo") none ≠ "foo" ∧
    calculateHighestRank (some "Foo") (some "Bar") = "bar" ∧
    calculateHighestRank (some "Foo") (some "Bar") ≠ "foo" := by
  decide

/-- C3 (amended): `calculateHighestRank` returns the lower-cased solo
label exactly when the solo tier index is strictly greater (absent and
unknown labels indexing as -1); in every other case — equal tiers
included — it returns the lower-cased team label when present and `""`
otherwise. The three examples of the claim hold as stated. -/
theorem c3_highest_rank_characterization (solo team : Option String) :
    (calculateHighestRank solo team =
      if tierIndex solo > tierIndex team then lowerLabel solo else lowerLabel team) ∧
    calculateHighestRank (some "Diamond") (some "Master") = "master" ∧
    calculateHighestRank (some "Diamond") none = "diamond" ∧
    calculateHighestRank none none = "" := by
  refine ⟨?_, by decide, by decide, by decide⟩
  have hA : ∀ o : Option String,
      (if strTruthy o then jsIndexOf ranks (jsToLower (o.getD "")) else -1) = tierIndex o := by
    intro o
    cases o with
    | none => rfl
    | some s =>
        by_cases h : s = ""
        · subst h
          decide
        · simp [strTruthy, tierIndex, h]
  have hB : ∀ o : Option String,
      (if strTruthy o then jsToLower (o.getD "") else "") = lowerLabel o := by
    intro o
    cases o with
    | none => rfl
    | some s =>
        by_cases h : s = ""
        · subst h
          decide
        · simp [strTruthy, lowerLabel, h]
  simp only [calculateHighestRank, hA, hB]

/-- C4 counterexample: a present, unexpired cache entry whose value is
the empty string is treated as a miss — `redis.get(segment) ? ... ` is
falsy on `""` — so `getData` runs the fresh path and does call the
upstream client, contrary to the claim's "performs no UpstreamClient
call" for every present entry. -/
theorem c4_empty_entry_counterexample :
    envEmptyEntry.cacheActive = true ∧
    envEmptyEntry.redisGet ("viewer-" ++ "emp") = some "" ∧
    (getData envEmptyEntry ⟨"emp", [pOk], none⟩).2.2 =
      [.profileCall pOk, .matchHistoryCall pOk, .ladderSummaryCall pOk] ∧
    (getData envEmptyEntry ⟨"emp", [pOk], none⟩).2.2 ≠ [] := by
  decide

/-- C4 (amended): for every channelId whose `viewer-{channelId}` entry
is present, unexpired and nonempty (every entry the system writes is a
nonempty JSON object), with the cache backend active, `getData` returns
exactly the JSON-decoded cached value and issues no upstream call and no
cache write. -/
theorem c4_cache_hit_returns_decoded (env : Env) (channelId : String)
    (profiles : List PlayerObject) (refresh : Option Bool) (v : String) (decoded : Json)
    (hact : env.cacheActive = true)
    (hentry : env.redisGet ("viewer-" ++ channelId) = some v)
    (hne : v ≠ "")
    (hparse : env.jsonParse v = some decoded) :
    getData env ⟨channelId, profiles, refresh⟩ = (.ok (.cached decoded), [], []) := by
  unfold getData
  simp only [isDataCached, getCachedObject, hact, hentry, if_true]
  have hb : (v != "") = true := bne_iff_ne.mpr hne
  simp [hb, hparse]

/-- C4 witness: a concrete hit returns the decoded entry with empty
upstream and cache-operation logs. -/
theorem c4_cache_hit_witness :
    getData envHit ⟨"hit", [pOk], some true⟩ =
      (.ok (.cached (.doc "cached-text")), [], []) :=
  c4_cache_hit_returns_decoded envHit "hit" [pOk] (some true) "cached-text"
    (.doc "cached-text") rfl (by decide) (by decide) (by decide)

/-- C5 counterexample: on a miss the successful batch issues two
separate backend operations, `set` then `expire`; applying only the
first of them to an empty backend leaves the entry observable with no
TTL, refuting the claim's "sets the configured TTL on that key before
any later read could observe the entry without a TTL" (each `await` is a
yield point, so a concurrent reader can run between the two). -/
theorem c5_ttl_gap_counterexample :
    (getData envMiss ⟨"m", [], none⟩).2.1.length = 2 ∧
    (applyOps emptyCacheState ((getData envMiss ⟨"m", [], none⟩).2.1.take 1)).value
      "viewer-m" = some "encoded-batch" ∧
    (applyOps emptyCacheState ((getData envMiss ⟨"m", [], none⟩).2.1.take 1)).ttlOf
      "viewer-m" = none := by
  decide

/-- C5 (amended): for every channelId with an absent (or expired — Redis
removes expired keys) cache entry and an active backend, `getData` runs
the full batch assembly over the supplied profiles, returns its result,
and issues exactly `set(key, encoded batch)` followed by
`expire(key, ttl)`; after both operations are applied — from any backend
state — the entry holds the encoded batch with the configured TTL.
Between the two operations the entry is briefly TTL-less
(`c5_ttl_gap_counterexample`). -/
theorem c5_miss_assembles_then_caches (env : Env) (channelId : String)
    (profiles : List PlayerObject) (refresh : Option Bool) (st : CacheState)
    (hact : env.cacheActive = true)
    (hmiss : env.redisGet ("viewer-" ++ channelId) = none) :
    (getData env ⟨channelId, profiles, refresh⟩).1 =
      .ok (.fresh (.profilesObj
        (mapWithIndex (fun i p => (getProfileData env p i).1) 0 profiles))) ∧
    (getData env ⟨channelId, profiles, refresh⟩).2.1 =
      [CacheOp.setOp ("viewer-" ++ channelId)
         (env.stringifyProfiles
           ⟨mapWithIndex (fun i p => (getProfileData env p i).1) 0 profiles⟩),
       CacheOp.expireOp ("viewer-" ++ channelId) env.ttl] ∧
    (applyOps st (getData env ⟨channelId, profiles, refresh⟩).2.1).value
        ("viewer-" ++ channelId) =
      some (env.stringifyProfiles
        ⟨mapWithIndex (fun i p => (getProfileData env p i).1) 0 profiles⟩) ∧
    (applyOps st (getData env ⟨channelId, profiles, refresh⟩).2.1).ttlOf
        ("viewer-" ++ channelId) = some env.ttl := by
  have hops : (getData env ⟨channelId, profiles, refresh⟩).2.1 =
      [CacheOp.setOp ("viewer-" ++ channelId)
         (env.stringifyProfiles
           ⟨mapWithIndex (fun i p => (getProfileData env p i).1) 0 profiles⟩),
       CacheOp.expireOp ("viewer-" ++ channelId) env.ttl] := by
    unfold getData
    simp only [isDataCached, hact, hmiss, if_true, Bool.and_false]
    simp [getFreshData, getFreshDataBody, cacheObject, hact, map_mapWithIndex]
  refine ⟨?_, hops, ?_, ?_⟩
  · unfold getData
    simp only [isDataCached, hact, hmiss, if_true, Bool.and_false]
    simp [getFreshData, getFreshDataBody, map_mapWithIndex]
  · rw [hops]
    simp [applyOps, applyOp]
  · rw [hops]
    simp [applyOps, applyOp]

/-- C5 witness: a concrete miss writes the encoded batch and then sets
the configured TTL. -/
theorem c5_miss_witness :
    (getData envMiss ⟨"m", [], none⟩).2.1 =
      [CacheOp.setOp ("viewer-" ++ "m")
         (envMiss.stringifyProfiles
           ⟨mapWithIndex (fun i p => (getProfileData envMiss p i).1) 0 []⟩),
       CacheOp.expireOp ("viewer-" ++ "m") envMiss.ttl] ∧
    (applyOps emptyCacheState (getData envMiss ⟨"m", [], none⟩).2.1).ttlOf
      ("viewer-" ++ "m") = some envMiss.ttl :=
  ⟨(c5_miss_assembles_then_caches envMiss "m" [] none emptyCacheState rfl rfl).2.1,
   (c5_miss_assembles_then_caches envMiss "m" [] none emptyCacheState rfl rfl).2.2.2⟩

/-- C6: the batch result has exactly one slot per input profile, in
input order, each slot being that profile's own assembly outcome: a slot
is the `{}` failure marker (`none`) whenever its profile's `getProfile`
rejected, and a fully populated payload whenever its profile's whole
pipeline succeeded — one profile's upstream failure never disturbs
another profile's slot. -/
theorem c6_batch_isolation (env : Env) (profiles : List PlayerObject) (seg : String)
    (i j : Nat) (payload : ViewerPayload)
    (hi : i < profiles.length) (hj : j < profiles.length)
    (hfail : env.getProfile profiles[i] = .error ())
    (hok : (assembleProfile env profiles[j] j).1 = .ok payload) :
    (freshProfiles env profiles seg).length = profiles.length ∧
    (∀ k, (freshProfiles env profiles seg).get? k =
      (profiles.get? k).map (fun p => (getProfileData env p k).1)) ∧
    (freshProfiles env profiles seg).get? i = some none ∧
    (freshProfiles env profiles seg).get? j = some (some payload) := by
  have hfp := freshProfiles_eq env profiles seg
  refine ⟨?_, ?_, ?_, ?_⟩
  · rw [hfp, mapWithIndex_length]
  · intro k
    rw [hfp, mapWithIndex_get?, Nat.zero_add]
  · rw [hfp, mapWithIndex_get?, Nat.zero_add, List.get?_eq_get hi]
    simp [getProfileData, assembleProfile, hfail, Except.toOption]
  · rw [hfp, mapWithIndex_get?, Nat.zero_add, List.get?_eq_get hj]
    simp [getProfileData, hok, Except.toOption]

/-- C6 witness: in a batch of three where the middle profile's
`getProfile` rejects, the result has three slots, the middle slot is the
failure marker and the first slot is the fully populated `payloadFix`. -/
theorem c6_batch_isolation_witness :
    envBatch.getProfile pBad = .error () ∧
    (assembleProfile envBatch pOk 0).1 = .ok payloadFix ∧
    (freshProfiles envBatch [pOk, pBad, pAlso] "viewer-w").length = 3 ∧
    (freshProfiles envBatch [pOk, pBad, pAlso] "viewer-w").get? 1 = some none ∧
    (freshProfiles envBatch [pOk, pBad, pAlso] "viewer-w").get? 0 =
      some (some payloadFix) := by
  have h := c6_batch_isolation envBatch [pOk, pBad, pAlso] "viewer-w" 1 0 payloadFix
    (by decide) (by decide) (by decide) (by decide)
  exact ⟨by decide, by decide, h.1, h.2.2.1, h.2.2.2⟩

/-- C7: the transformed history is exactly the spec's description —
drop precisely the entries whose type is "Custom" and map each survivor
to `{mapName: map, mode: type, result: decision lower-cased,
date: date*1000}` — and the claim's concrete example holds: a "Custom"
entry plus a 1v1 win on map "X" at epoch-second 1000 yield the single
record `{mapName:"X", mode:"1v1", result:"win", date:1000000}`. -/
theorem c7_match_history_filter_map (apiData : MatchHistoryApiData) :
    getMatchHistory apiData = matchHistorySpec apiData.data.matchesArr ∧
    getMatchHistory ⟨⟨[⟨"Custom", "Y", "Loss", .num 5⟩, ⟨"1v1", "X", "Win", .num 1000⟩]⟩⟩ =
      [⟨"X", "1v1", "win", .num 1000000⟩] := by
  refine ⟨rfl, by decide⟩

/-- C8: `getData` never reads the request's `refresh` field — two
requests differing only in `refresh` (present or absent, true or false)
produce identical results, identical cache operations and identical
upstream calls, for every environment, channel and profile list. -/
theorem c8_refresh_has_no_effect (env : Env) (channelId : String)
    (profiles : List PlayerObject) (r1 r2 : Option Bool) :
    getData env ⟨channelId, profiles, r1⟩ = getData env ⟨channelId, profiles, r2⟩ := rfl

/-- C9: `save` truncates the profile list to the configured maximum and
returns `true` on success and `false` on a store failure (leaving the
store untouched); `get` returns the found document's channelId and
profiles with status 200, status 404 when no document exists, and the
catch maps a store failure to a plain status-400 result — every branch
returns a value, so the underlying error never propagates. -/
theorem c9_store_contract (env : DbEnv) (config : ConfigObject) (channelId : Int) :
    (env.dbFails = false →
      (save env config).1 = true ∧
      dbFindOne (save env config).2 config.channelId =
        some (config.channelId, config.data.take env.maxPlayerProfileCount) ∧
      (config.data.take env.maxPlayerProfileCount).length ≤ env.maxPlayerProfileCount) ∧
    (env.dbFails = true →
      (save env config).1 = false ∧ (save env config).2 = env.dbState ∧
      dbGet env channelId = .storeError ∧ (dbGet env channelId).status = 400) ∧
    (env.dbFails = false → ∀ c ps, dbFindOne env.dbState channelId = some (c, ps) →
      dbGet env channelId = .found c ps ∧ (dbGet env channelId).status = 200) ∧
    (env.dbFails = false → dbFindOne env.dbState channelId = none →
      dbGet env channelId = .notFound ∧ (dbGet env channelId).status = 404) := by
  refine ⟨?_, ?_, ?_, ?_⟩
  · intro h
    refine ⟨by simp [save, h], ?_, ?_⟩
    · simp [save, h, dbFindOne_dbUpsert]
    · rw [List.length_take]
      exact Nat.min_le_left _ _
  · intro h
    exact ⟨by simp [save, h], by simp [save, h], by simp [dbGet, h],
      by simp [dbGet, h, GetConfigResult.status]⟩
  · intro h c ps hfind
    constructor
    · simp [dbGet, h, hfind]
    · simp [dbGet, h, hfind, GetConfigResult.status]
  · intro h hfind
    constructor
    · simp [dbGet, h, hfind]
    · simp [dbGet, h, hfind, GetConfigResult.status]

/-- C9 witness: saving three profiles with a configured maximum of two
stores exactly the first two and reports success; `get` reports 400 on a
failing store and 404 on an empty one. -/
theorem c9_store_contract_witness :
    (save dbEnvOk configFix).1 = true ∧
    dbFindOne (save dbEnvOk configFix).2 7 = some (7, [pOk, pBad]) ∧
    (dbGet dbEnvFail 7).status = 400 ∧
    (dbGet dbEnvOk 7).status = 404 :=
  ⟨((c9_store_contract dbEnvOk configFix 7).1 rfl).1,
   ((c9_store_contract dbEnvOk configFix 7).1 rfl).2.1,
   ((c9_store_contract dbEnvFail configFix 7).2.1 rfl).2.2.2,
   ((c9_store_contract dbEnvOk configFix 7).2.2.2 rfl (by decide)).2⟩

/-- C10: `getFreshData`'s catch branch is unreachable — because
`getProfileData` swallows every per-profile failure, the batch body
never throws, so for every environment, profile list and segment the
result is the `{profiles: results}` shape with exactly one slot per
input profile, never the bare `[]` fallback. -/
theorem c10_empty_fallback_unreachable (env : Env) (profiles : List PlayerObject)
    (seg : String) :
    (∃ results, (getFreshData env profiles seg).1 = .profilesObj results ∧
      results.length = profiles.length) ∧
    (getFreshData env profiles seg).1 ≠ .emptyArr := by
  have hshape : (getFreshData env profiles seg).1 =
      .profilesObj ((mapWithIndex (fun i p => getProfileData env p i) 0 profiles).map
        Prod.fst) := rfl
  constructor
  · refine ⟨_, hshape, ?_⟩
    rw [List.length_map, mapWithIndex_length]
  · rw [hshape]
    intro h
    cases h
